import Mathlib

/-!
Shallow embedding of the now-playing serverless handler
(src/api/now-playing.mjs, current revision) together with the first
recorded revision of the same handler (src/unnamed/part_000, first
document).  Upstream HTTP responses are modelled as already-parsed
structures; the sequential pipeline (token exchange, currently-playing
query, recently-played fallback, response shaping) becomes total
functions, with thrown JS errors represented by `Except.error` carrying
the error message.
-/

namespace NowPlaying

/-- An artist object; only its `name` field is ever read. -/
structure Artist where
  name : String

/-- An album image; only its `url` field is ever read. -/
structure Image where
  url : String

/-- An album; only its `images` list is ever read. -/
structure Album where
  images : List Image

/-- The `external_urls` object; only `spotify` is read. -/
structure ExternalUrls where
  spotify : String

/-- A track object, as read by both the playing branch (`song.item`) and
the fallback branch (`recentData.items[0]?.track`). -/
structure Item where
  type_ : String
  name : String
  artists : List Artist
  album : Album
  external_urls : ExternalUrls
  duration_ms : Int

/-- Parsed body of the currently-playing response. -/
structure Song where
  is_playing : Bool
  item : Option Item
  progress_ms : Int

/-- One element of `recentData.items`; the `track` field may be absent
(the code guards the read with optional chaining). -/
structure RecentItem where
  track : Option Item

/-- Parsed body of the recently-played response. -/
structure RecentData where
  items : List RecentItem

/-- Parsed body of the token-endpoint response: the optional
`access_token` field plus the stringified body used in error messages
(the result of JSON.stringify on the parsed data). -/
structure TokenData where
  access_token : Option String
  bodyRaw : String

/-- The token-endpoint HTTP response. -/
structure TokenResponse where
  status : Nat
  data : TokenData

/-- The currently-playing HTTP response; the body is only read when the
status is 200, and the parsed JSON may be null (`body = none`). -/
structure NowPlayingResponse where
  status : Nat
  body : Option Song

/-- The recently-played HTTP response; the body is only read when the
response is ok. -/
structure RecentResponse where
  status : Nat
  body : RecentData

/-- The complete upstream state one invocation observes: what each of
the three outbound requests would return. -/
structure Upstream where
  token : TokenResponse
  nowPlaying : NowPlayingResponse
  recent : RecentResponse

/-- The `ok` field of a fetch Response: status in the range 200-299. -/
def respOk (status : Nat) : Bool :=
  200 ≤ status && status ≤ 299

/-- JS truthiness of an optional string (absent and empty are falsy),
used for the `if (!access_token)` check. -/
def truthyStr : Option String → Bool
  | none => false
  | some s => !(s == "")

/-- The normalized result object built by getNowPlaying.  Fields that a
given branch does not set are `none` (the JS object simply lacks them,
or holds `undefined`). -/
structure TrackInfo where
  status : String
  isPlaying : Bool
  trackName : Option String := none
  artistName : Option String := none
  albumArtUrl : Option String := none
  songUrl : Option String := none
  progressMs : Option Int := none
  durationMs : Option Int := none

/-- getAccessToken: POSTs to the token endpoint; on a non-ok response
throws an error carrying the status code and the stringified body,
otherwise returns the parsed data (lines 24-46 of now-playing.mjs). -/
def getAccessToken (resp : TokenResponse) : Except String TokenData :=
  if !respOk resp.status then
    Except.error
      ("Spotify token API returned " ++ toString resp.status ++ ": " ++ resp.data.bodyRaw)
  else
    Except.ok resp.data

/-- The playing-branch guard of getNowPlaying, lines 70-85: status 200,
non-null body, `is_playing` true, an item present of type "track".
Returns the song and item when the guard passes. -/
def activeTrack (r : NowPlayingResponse) : Option (Song × Item) :=
  if r.status = 200 then
    match r.body with
    | some song =>
        match song.item with
        | some item =>
            if song.is_playing && (item.type_ == "track") then some (song, item)
            else none
        | none => none
    | none => none
  else none

/-- The "playing" result object, lines 74-83. -/
def playingResult (song : Song) (item : Item) : TrackInfo :=
  { status := "playing"
    isPlaying := song.is_playing
    trackName := some item.name
    artistName := some (String.intercalate ", " (item.artists.map Artist.name))
    albumArtUrl := (item.album.images.head?).map Image.url
    songUrl := some item.external_urls.spotify
    progressMs := some song.progress_ms
    durationMs := some item.duration_ms }

/-- The "last_played" result object, lines 108-117. -/
def lastPlayedResult (track : Item) : TrackInfo :=
  { status := "last_played"
    isPlaying := false
    trackName := some track.name
    artistName := some (String.intercalate ", " (track.artists.map Artist.name))
    albumArtUrl := (track.album.images.head?).map Image.url
    songUrl := some track.external_urls.spotify
    progressMs := some 0
    durationMs := some track.duration_ms }

/-- The "offline" result object, lines 99 and 122. -/
def offlineResult : TrackInfo :=
  { status := "offline", isPlaying := false }

/-- The fallback stage of getNowPlaying, lines 89-122 of the current
revision: a non-ok recently-played response yields offline; otherwise
the first item with a track yields last_played, else offline. -/
def recentStage (resp : RecentResponse) : TrackInfo :=
  if !respOk resp.status then
    offlineResult
  else
    match (resp.body.items.head?).bind RecentItem.track with
    | some lastTrack => lastPlayedResult lastTrack
    | none => offlineResult

/-- getNowPlaying, current revision (lines 52-123): token exchange, the
`if (!access_token) throw` check, the currently-playing branch, then the
fallback stage. -/
def getNowPlaying (u : Upstream) : Except String TrackInfo :=
  match getAccessToken u.token with
  | Except.error e => Except.error e
  | Except.ok data =>
      if !truthyStr data.access_token then
        Except.error "Could not get access token"
      else
        match activeTrack u.nowPlaying with
        | some (song, item) => Except.ok (playingResult song item)
        | none => Except.ok (recentStage u.recent)

/-- Serialized JSON body of the HTTP response: either a TrackInfo or the
error object built in the catch block. -/
inductive ResponseBody where
  | track (t : TrackInfo)
  | errorBody (message : String)

/-- The HTTP response produced by a handler: status, the two headers the
code may set, and the JSON body. -/
structure HttpResult where
  status : Nat
  contentType : Option String
  cacheControl : Option String
  body : ResponseBody

/-- The default export of now-playing.mjs (lines 129-154): on success,
sets Content-Type and cache-control via setHeader and responds 200 with
the data; on a caught error, responds 500 with the error object without
touching the headers. -/
def handler (u : Upstream) : HttpResult :=
  match getNowPlaying u with
  | Except.ok data =>
      { status := 200
        contentType := some "application/json"
        cacheControl := some "public, s-maxage=10, stale-while-revalidate=5"
        body := ResponseBody.track data }
  | Except.error e =>
      { status := 500
        contentType := none
        cacheControl := none
        body := ResponseBody.errorBody e }

/-- The `status` field of the serialized JSON body.  The catch block
always writes literal "error" there. -/
def bodyStatus : ResponseBody → String
  | ResponseBody.track t => t.status
  | ResponseBody.errorBody _ => "error"

/-- The `isPlaying` field of the serialized JSON body.  The catch block
always writes `false` there. -/
def bodyIsPlaying : ResponseBody → Bool
  | ResponseBody.track t => t.isPlaying
  | ResponseBody.errorBody _ => false

/-- The fallback stage of the FIRST revision (src/unnamed/part_000,
lines 78-105): identical except that a non-ok recently-played response
THROWS instead of returning offline. -/
def recentStageOld (resp : RecentResponse) : Except String TrackInfo :=
  if !respOk resp.status then
    Except.error ("Spotify recent-played API returned " ++ toString resp.status)
  else
    match (resp.body.items.head?).bind RecentItem.track with
    | some lastTrack => Except.ok (lastPlayedResult lastTrack)
    | none => Except.ok offlineResult

/-- getNowPlaying of the FIRST revision (src/unnamed/part_000, lines
44-106).  Its guard reads `song.is_playing` without a null check, so a
200 response with a null body throws a TypeError; its fallback stage is
recentStageOld. -/
def getNowPlayingOld (u : Upstream) : Except String TrackInfo :=
  match getAccessToken u.token with
  | Except.error e => Except.error e
  | Except.ok data =>
      if !truthyStr data.access_token then
        Except.error "Could not get access token"
      else if u.nowPlaying.status = 200 then
        match u.nowPlaying.body with
        | none => Except.error "TypeError: Cannot read properties of null"
        | some song =>
            match song.item with
            | some item =>
                if song.is_playing && (item.type_ == "track") then
                  Except.ok (playingResult song item)
                else recentStageOld u.recent
            | none => recentStageOld u.recent
      else recentStageOld u.recent

/-- The default export of the FIRST revision (part_000 lines 109-129):
same success shape; the error path also sets Content-Type. -/
def handlerOld (u : Upstream) : HttpResult :=
  match getNowPlayingOld u with
  | Except.ok data =>
      { status := 200
        contentType := some "application/json"
        cacheControl := some "public, s-maxage=10, stale-while-revalidate=5"
        body := ResponseBody.track data }
  | Except.error e =>
      { status := 500
        contentType := some "application/json"
        cacheControl := none
        body := ResponseBody.errorBody e }

/-! Concrete upstream states used as evaluation witnesses. -/

/-- A sample track item of type "track" with two artists and two album
images. -/
def sampleItem : Item :=
  { type_ := "track"
    name := "Song A"
    artists := [{ name := "Artist 1" }, { name := "Artist 2" }]
    album := { images := [{ url := "https://img.example/1" }, { url := "https://img.example/2" }] }
    external_urls := { spotify := "https://open.example/track/1" }
    duration_ms := 200000 }

/-- A sample currently-playing body with an actively playing track. -/
def sampleSong : Song :=
  { is_playing := true, item := some sampleItem, progress_ms := 1234 }

/-- A successful token response carrying an access token. -/
def tokenOk : TokenResponse :=
  { status := 200, data := { access_token := some "tok", bodyRaw := "token-body" } }

/-- Upstream state with an actively playing track. -/
def uPlaying : Upstream :=
  { token := tokenOk
    nowPlaying := { status := 200, body := some sampleSong }
    recent := { status := 200, body := { items := [] } } }

/-- Upstream state with nothing playing (204) and a recent history. -/
def uRecent : Upstream :=
  { token := tokenOk
    nowPlaying := { status := 204, body := none }
    recent := { status := 200, body := { items := [{ track := some sampleItem }] } } }

/-- Upstream state with nothing playing and an empty history. -/
def uEmpty : Upstream :=
  { token := tokenOk
    nowPlaying := { status := 204, body := none }
    recent := { status := 200, body := { items := [] } } }

/-- Upstream state with nothing playing and a failing recently-played
endpoint. -/
def uRecentFail : Upstream :=
  { token := tokenOk
    nowPlaying := { status := 204, body := none }
    recent := { status := 502, body := { items := [] } } }

/-- Upstream state where the token endpoint rejects the refresh token. -/
def uTokenFail : Upstream :=
  { token := { status := 401, data := { access_token := none, bodyRaw := "invalid_grant" } }
    nowPlaying := { status := 204, body := none }
    recent := { status := 200, body := { items := [] } } }

/-- Upstream state where the token endpoint answers 200 but the body
has no access_token field. -/
def uNoToken : Upstream :=
  { token := { status := 200, data := { access_token := none, bodyRaw := "empty-body" } }
    nowPlaying := { status := 200, body := some sampleSong }
    recent := { status := 200, body := { items := [{ track := some sampleItem }] } } }

/-! Helper lemmas shared by the claim theorems. -/

/-- When the playing-branch guard passes, all of its conjuncts hold; in
particular the song is actively playing. -/
theorem activeTrack_eq_some {r : NowPlayingResponse} {song : Song} {item : Item}
    (h : activeTrack r = some (song, item)) :
    r.status = 200 ∧ r.body = some song ∧ song.item = some item ∧
      song.is_playing = true ∧ item.type_ = "track" := by
  unfold activeTrack at h
  split at h
  · split at h
    · split at h
      · split at h
        · simp_all
        · simp_all
      · simp_all
    · simp_all
  · simp_all

/-- Conversely, when all guard conjuncts hold the guard passes. -/
theorem activeTrack_of_parts {r : NowPlayingResponse} {song : Song} {item : Item}
    (h200 : r.status = 200) (hbody : r.body = some song)
    (hitem : song.item = some item) (hplay : song.is_playing = true)
    (htype : item.type_ = "track") :
    activeTrack r = some (song, item) := by
  unfold activeTrack
  simp [h200, hbody, hitem, hplay, htype]

/-- Every TrackInfo getNowPlaying can return has a status among playing,
last_played and offline, and isPlaying is true exactly on the playing
status. -/
theorem getNowPlaying_ok_valid (u : Upstream) (t : TrackInfo)
    (h : getNowPlaying u = Except.ok t) :
    (t.status = "playing" ∨ t.status = "last_played" ∨ t.status = "offline") ∧
      (t.isPlaying = true ↔ t.status = "playing") := by
  unfold getNowPlaying at h
  split at h
  · exact absurd h (by simp)
  · split at h
    · exact absurd h (by simp)
    · split at h
      · rename_i song item hact
        have hplay := (activeTrack_eq_some hact).2.2.2.1
        cases h
        simp [playingResult, hplay]
      · cases h
        unfold recentStage
        split
        · simp [offlineResult]
        · split
          · simp [lastPlayedResult]
          · simp [offlineResult]

/-! Claim theorems. -/

/-- C1: whenever the token stage succeeded, if the currently-playing
request returns 200 with a body whose is_playing is true and whose item
has type "track", getNowPlaying returns the "playing" result with
isPlaying true, the track name, the artist names joined by ", ", the
first album art URL, the external URL, progress and duration in
milliseconds; and on every other currently-playing outcome (guard
fails: 204, 404, null body, non-track item, or is_playing false) it
returns, without raising, exactly the result of the recently-played
stage. -/
theorem getNowPlaying_currently_playing_cases :
    (∀ (u : Upstream) (song : Song) (item : Item),
        respOk u.token.status = true →
        truthyStr u.token.data.access_token = true →
        u.nowPlaying.status = 200 →
        u.nowPlaying.body = some song →
        song.is_playing = true →
        song.item = some item →
        item.type_ = "track" →
        getNowPlaying u = Except.ok
          { status := "playing"
            isPlaying := true
            trackName := some item.name
            artistName := some (String.intercalate ", " (item.artists.map Artist.name))
            albumArtUrl := (item.album.images.head?).map Image.url
            songUrl := some item.external_urls.spotify
            progressMs := some song.progress_ms
            durationMs := some item.duration_ms }) ∧
    (∀ u : Upstream,
        respOk u.token.status = true →
        truthyStr u.token.data.access_token = true →
        activeTrack u.nowPlaying = none →
        getNowPlaying u = Except.ok (recentStage u.recent)) := by
  constructor
  · intro u song item hok hacc h200 hbody hplay hitem htype
    have hact := activeTrack_of_parts h200 hbody hitem hplay htype
    unfold getNowPlaying getAccessToken
    simp [hok, hacc, hact, playingResult, hplay]
  · intro u hok hacc hact
    unfold getNowPlaying getAccessToken
    simp [hok, hacc, hact]

/-- C1 witness: at uPlaying the playing branch fires with all fields,
and at uRecent (a 204) the fallback result is returned. -/
theorem getNowPlaying_currently_playing_cases_witness :
    getNowPlaying uPlaying = Except.ok
      { status := "playing"
        isPlaying := true
        trackName := some sampleItem.name
        artistName := some (String.intercalate ", " (sampleItem.artists.map Artist.name))
        albumArtUrl := (sampleItem.album.images.head?).map Image.url
        songUrl := some sampleItem.external_urls.spotify
        progressMs := some sampleSong.progress_ms
        durationMs := some sampleItem.duration_ms } ∧
    getNowPlaying uRecent = Except.ok (recentStage uRecent.recent) :=
  ⟨getNowPlaying_currently_playing_cases.1 uPlaying sampleSong sampleItem
      (by decide) (by decide) rfl rfl rfl rfl rfl,
    getNowPlaying_currently_playing_cases.2 uRecent (by decide) (by decide) rfl⟩

/-- C2: whenever the token stage succeeded, no track is actively
playing, and the recently-played request succeeds, then if its first
(most recent) item carries a track, getNowPlaying returns the
"last_played" result with isPlaying false, progressMs 0 and the other
fields from that track; and if it carries no track (in particular when
the items list is empty) getNowPlaying returns the offline result. -/
theorem getNowPlaying_fallback_cases :
    (∀ (u : Upstream) (track : Item),
        respOk u.token.status = true →
        truthyStr u.token.data.access_token = true →
        activeTrack u.nowPlaying = none →
        respOk u.recent.status = true →
        (u.recent.body.items.head?).bind RecentItem.track = some track →
        getNowPlaying u = Except.ok
          { status := "last_played"
            isPlaying := false
            trackName := some track.name
            artistName := some (String.intercalate ", " (track.artists.map Artist.name))
            albumArtUrl := (track.album.images.head?).map Image.url
            songUrl := some track.external_urls.spotify
            progressMs := some 0
            durationMs := some track.duration_ms }) ∧
    (∀ u : Upstream,
        respOk u.token.status = true →
        truthyStr u.token.data.access_token = true →
        activeTrack u.nowPlaying = none →
        respOk u.recent.status = true →
        (u.recent.body.items.head?).bind RecentItem.track = none →
        getNowPlaying u = Except.ok { status := "offline", isPlaying := false }) := by
  constructor
  · intro u track hok hacc hact hrec htrack
    unfold getNowPlaying getAccessToken recentStage
    simp [hok, hacc, hact, hrec, htrack, lastPlayedResult]
  · intro u hok hacc hact hrec htrack
    unfold getNowPlaying getAccessToken recentStage
    simp [hok, hacc, hact, hrec, htrack, offlineResult]

/-- C2 witness: at uRecent the fallback yields last_played from the
sample track, and at uEmpty it yields offline. -/
theorem getNowPlaying_fallback_cases_witness :
    getNowPlaying uRecent = Except.ok
      { status := "last_played"
        isPlaying := false
        trackName := some sampleItem.name
        artistName := some (String.intercalate ", " (sampleItem.artists.map Artist.name))
        albumArtUrl := (sampleItem.album.images.head?).map Image.url
        songUrl := some sampleItem.external_urls.spotify
        progressMs := some 0
        durationMs := some sampleItem.duration_ms } ∧
    getNowPlaying uEmpty = Except.ok { status := "offline", isPlaying := false } :=
  ⟨getNowPlaying_fallback_cases.1 uRecent sampleItem
      (by decide) (by decide) rfl (by decide) rfl,
    getNowPlaying_fallback_cases.2 uEmpty (by decide) (by decide) rfl (by decide) rfl⟩

/-- C3: whenever the token stage succeeded, no track is actively
playing and the recently-played request returns a non-success response,
getNowPlaying returns the offline result without raising, and the
handler still responds with HTTP 200. -/
theorem getNowPlaying_recent_failure (u : Upstream)
    (hok : respOk u.token.status = true)
    (hacc : truthyStr u.token.data.access_token = true)
    (hact : activeTrack u.nowPlaying = none)
    (hrec : respOk u.recent.status = false) :
    getNowPlaying u = Except.ok { status := "offline", isPlaying := false } ∧
      (handler u).status = 200 := by
  have h1 : getNowPlaying u = Except.ok { status := "offline", isPlaying := false } := by
    unfold getNowPlaying getAccessToken recentStage
    simp [hok, hacc, hact, hrec, offlineResult]
  refine ⟨h1, ?_⟩
  unfold handler
  rw [h1]

/-- C3 witness: at uRecentFail (recently-played answers 502) the result
is offline and the HTTP status 200. -/
theorem getNowPlaying_recent_failure_witness :
    getNowPlaying uRecentFail = Except.ok { status := "offline", isPlaying := false } ∧
      (handler uRecentFail).status = 200 :=
  getNowPlaying_recent_failure uRecentFail (by decide) (by decide) rfl (by decide)

/-- C4: when the token endpoint answers a non-2xx status, getAccessToken
raises an error whose message carries the status code and the response
body (the message is exactly the concatenation of a fixed prefix, the
status code, ": " and the stringified body, hence non-empty), the error
propagates through getNowPlaying with no retry, and the handler responds
HTTP 500 with the error object whose status field is "error", whose
isPlaying field is false and whose error field is that message. -/
theorem token_failure_surfaced (u : Upstream)
    (h : respOk u.token.status = false) :
    getAccessToken u.token = Except.error
        ("Spotify token API returned " ++ toString u.token.status ++ ": " ++ u.token.data.bodyRaw) ∧
      getNowPlaying u = Except.error
        ("Spotify token API returned " ++ toString u.token.status ++ ": " ++ u.token.data.bodyRaw) ∧
      (handler u).status = 500 ∧
      (handler u).body = ResponseBody.errorBody
        ("Spotify token API returned " ++ toString u.token.status ++ ": " ++ u.token.data.bodyRaw) ∧
      bodyStatus (handler u).body = "error" ∧
      bodyIsPlaying (handler u).body = false ∧
      ("Spotify token API returned " ++ toString u.token.status ++ ": " ++ u.token.data.bodyRaw) ≠ "" := by
  have h1 : getAccessToken u.token = Except.error
      ("Spotify token API returned " ++ toString u.token.status ++ ": " ++ u.token.data.bodyRaw) := by
    unfold getAccessToken
    simp [h]
  have h2 : getNowPlaying u = Except.error
      ("Spotify token API returned " ++ toString u.token.status ++ ": " ++ u.token.data.bodyRaw) := by
    unfold getNowPlaying
    rw [h1]
  have h3 : handler u =
      { status := 500
        contentType := none
        cacheControl := none
        body := ResponseBody.errorBody
          ("Spotify token API returned " ++ toString u.token.status ++ ": " ++ u.token.data.bodyRaw) } := by
    unfold handler
    rw [h2]
  refine ⟨h1, h2, by rw [h3], by rw [h3], by rw [h3]; rfl, by rw [h3]; rfl, ?_⟩
  intro hc
  have hd := congrArg String.data hc
  simp [String.data_append] at hd

/-- C4 witness: at uTokenFail (token endpoint answers 401) the error is
surfaced as an HTTP 500 error object with a non-empty message. -/
theorem token_failure_surfaced_witness :
    getAccessToken uTokenFail.token =
        Except.error "Spotify token API returned 401: invalid_grant" ∧
      getNowPlaying uTokenFail =
        Except.error "Spotify token API returned 401: invalid_grant" ∧
      (handler uTokenFail).status = 500 ∧
      (handler uTokenFail).body =
        ResponseBody.errorBody "Spotify token API returned 401: invalid_grant" ∧
      bodyStatus (handler uTokenFail).body = "error" ∧
      bodyIsPlaying (handler uTokenFail).body = false ∧
      ("Spotify token API returned 401: invalid_grant" : String) ≠ "" :=
  token_failure_surfaced uTokenFail (by decide)

/-- C5: for every upstream state, the JSON body the handler returns has
a status among playing, last_played, offline and error, and its
isPlaying field is true exactly when the status is "playing". -/
theorem handler_status_invariant (u : Upstream) :
    (bodyStatus (handler u).body = "playing" ∨
       bodyStatus (handler u).body = "last_played" ∨
       bodyStatus (handler u).body = "offline" ∨
       bodyStatus (handler u).body = "error") ∧
      (bodyIsPlaying (handler u).body = true ↔
        bodyStatus (handler u).body = "playing") := by
  unfold handler
  cases hg : getNowPlaying u with
  | error e => simp [bodyStatus, bodyIsPlaying]
  | ok t =>
      have hv := getNowPlaying_ok_valid u t hg
      refine ⟨?_, by simpa [bodyStatus, bodyIsPlaying] using hv.2⟩
      rcases hv.1 with hs | hs | hs
      · exact Or.inl (by simpa [bodyStatus] using hs)
      · exact Or.inr (Or.inl (by simpa [bodyStatus] using hs))
      · exact Or.inr (Or.inr (Or.inl (by simpa [bodyStatus] using hs)))

/-- C6: whenever getNowPlaying completes without raising, the handler
responds with HTTP 200, a Content-Type of application/json, and a
cache-control header of the form
public, s-maxage=N, stale-while-revalidate=M (with N = 10 and M = 5). -/
theorem handler_success_headers (u : Upstream) (t : TrackInfo)
    (h : getNowPlaying u = Except.ok t) :
    (handler u).status = 200 ∧
      (handler u).contentType = some "application/json" ∧
      ∃ N M : Nat, (handler u).cacheControl =
        some ("public, s-maxage=" ++ toString N ++ ", stale-while-revalidate=" ++ toString M) := by
  unfold handler
  rw [h]
  exact ⟨rfl, rfl, 10, 5, rfl⟩

/-- C6 witness: at uPlaying the handler responds 200 with both headers
set. -/
theorem handler_success_headers_witness :
    (handler uPlaying).status = 200 ∧
      (handler uPlaying).contentType = some "application/json" ∧
      ∃ N M : Nat, (handler uPlaying).cacheControl =
        some ("public, s-maxage=" ++ toString N ++ ", stale-while-revalidate=" ++ toString M) :=
  handler_success_headers uPlaying (playingResult sampleSong sampleItem) rfl

/-- C7: building the playing or last_played result for a track whose
album images list is empty does not raise (both builders are total):
the albumArtUrl field is simply absent and every other field is still
populated from the track. -/
theorem albumArt_optional (song : Song) (item : Item)
    (h : item.album.images = []) :
    (playingResult song item).albumArtUrl = none ∧
      (playingResult song item).trackName = some item.name ∧
      (playingResult song item).artistName =
        some (String.intercalate ", " (item.artists.map Artist.name)) ∧
      (playingResult song item).songUrl = some item.external_urls.spotify ∧
      (playingResult song item).progressMs = some song.progress_ms ∧
      (playingResult song item).durationMs = some item.duration_ms ∧
      (lastPlayedResult item).albumArtUrl = none ∧
      (lastPlayedResult item).trackName = some item.name ∧
      (lastPlayedResult item).artistName =
        some (String.intercalate ", " (item.artists.map Artist.name)) ∧
      (lastPlayedResult item).songUrl = some item.external_urls.spotify ∧
      (lastPlayedResult item).progressMs = some 0 ∧
      (lastPlayedResult item).durationMs = some item.duration_ms := by
  simp [playingResult, lastPlayedResult, h]

/-- C7 witness: a concrete track with no album images still yields both
results with every other field populated and no album art URL. -/
theorem albumArt_optional_witness :
    (playingResult sampleSong
        { sampleItem with album := { images := [] } }).albumArtUrl = none ∧
      (playingResult sampleSong
        { sampleItem with album := { images := [] } }).trackName =
        some { sampleItem with album := ({ images := [] } : Album) }.name ∧
      (playingResult sampleSong
        { sampleItem with album := { images := [] } }).artistName =
        some (String.intercalate ", "
          ({ sampleItem with album := ({ images := [] } : Album) }.artists.map Artist.name)) ∧
      (playingResult sampleSong
        { sampleItem with album := { images := [] } }).songUrl =
        some { sampleItem with album := ({ images := [] } : Album) }.external_urls.spotify ∧
      (playingResult sampleSong
        { sampleItem with album := { images := [] } }).progressMs = some sampleSong.progress_ms ∧
      (playingResult sampleSong
        { sampleItem with album := { images := [] } }).durationMs =
        some { sampleItem with album := ({ images := [] } : Album) }.duration_ms ∧
      (lastPlayedResult { sampleItem with album := { images := [] } }).albumArtUrl = none ∧
      (lastPlayedResult { sampleItem with album := { images := [] } }).trackName =
        some { sampleItem with album := ({ images := [] } : Album) }.name ∧
      (lastPlayedResult { sampleItem with album := { images := [] } }).artistName =
        some (String.intercalate ", "
          ({ sampleItem with album := ({ images := [] } : Album) }.artists.map Artist.name)) ∧
      (lastPlayedResult { sampleItem with album := { images := [] } }).songUrl =
        some { sampleItem with album := ({ images := [] } : Album) }.external_urls.spotify ∧
      (lastPlayedResult { sampleItem with album := { images := [] } }).progressMs = some 0 ∧
      (lastPlayedResult { sampleItem with album := { images := [] } }).durationMs =
        some { sampleItem with album := ({ images := [] } : Album) }.duration_ms :=
  albumArt_optional sampleSong { sampleItem with album := { images := [] } } rfl

/-- C8: at the concrete upstream state uRecentFail — token exchange
succeeds, nothing is playing, and the recently-played request answers a
non-success 502 — the first revision of getNowPlaying raises (so its
handler responds HTTP 500) while the current revision returns the
offline result (so its handler responds HTTP 200): the two revisions
are not equivalent. -/
theorem revisions_disagree_on_fallback_failure :
    getNowPlayingOld uRecentFail =
        Except.error "Spotify recent-played API returned 502" ∧
      getNowPlaying uRecentFail =
        Except.ok { status := "offline", isPlaying := false } ∧
      (handlerOld uRecentFail).status = 500 ∧
      (handler uRecentFail).status = 200 ∧
      getNowPlayingOld uRecentFail ≠ getNowPlaying uRecentFail := by
  refine ⟨rfl, rfl, rfl, rfl, ?_⟩
  intro hc
  rw [show getNowPlayingOld uRecentFail =
        Except.error "Spotify recent-played API returned 502" from rfl,
      show getNowPlaying uRecentFail =
        Except.ok ({ status := "offline", isPlaying := false } : TrackInfo) from rfl] at hc
  exact Except.noConfusion hc

/-- C9: when the token endpoint answers with a successful status but the
parsed body has no access_token field, getNowPlaying raises the error
"Could not get access token" regardless of what the playback and
fallback endpoints would answer (so neither query matters), and the
handler responds HTTP 500 with a body whose status field is "error". -/
theorem missing_access_token_errors (u : Upstream)
    (hok : respOk u.token.status = true)
    (hmiss : u.token.data.access_token = none) :
    getNowPlaying u = Except.error "Could not get access token" ∧
      (∀ (np : NowPlayingResponse) (rc : RecentResponse),
        getNowPlaying { token := u.token, nowPlaying := np, recent := rc } =
          Except.error "Could not get access token") ∧
      (handler u).status = 500 ∧
      bodyStatus (handler u).body = "error" ∧
      bodyIsPlaying (handler u).body = false := by
  have key : ∀ (np : NowPlayingResponse) (rc : RecentResponse),
      getNowPlaying { token := u.token, nowPlaying := np, recent := rc } =
        Except.error "Could not get access token" := by
    intro np rc
    unfold getNowPlaying getAccessToken
    simp [hok, hmiss, truthyStr]
  have h1 : getNowPlaying u = Except.error "Could not get access token" := by
    have := key u.nowPlaying u.recent
    simpa using this
  have h3 : handler u =
      { status := 500
        contentType := none
        cacheControl := none
        body := ResponseBody.errorBody "Could not get access token" } := by
    unfold handler
    rw [h1]
  exact ⟨h1, key, by rw [h3], by rw [h3]; rfl, by rw [h3]; rfl⟩

/-- C9 witness: at uNoToken (token endpoint 200 but empty body) the
result is the access-token error and the handler responds 500 with the
error status, even though both playback endpoints would have answered
successfully. -/
theorem missing_access_token_errors_witness :
    getNowPlaying uNoToken = Except.error "Could not get access token" ∧
      (∀ (np : NowPlayingResponse) (rc : RecentResponse),
        getNowPlaying { token := uNoToken.token, nowPlaying := np, recent := rc } =
          Except.error "Could not get access token") ∧
      (handler uNoToken).status = 500 ∧
      bodyStatus (handler uNoToken).body = "error" ∧
      bodyIsPlaying (handler uNoToken).body = false :=
  missing_access_token_errors uNoToken (by decide) rfl

/-- C10: whenever getNowPlaying raises, the handler responds HTTP 500
with neither the cache-control nor the Content-Type header set: those
headers are set only on the success path, after getNowPlaying has
returned without raising (the success side is handler_success_headers). -/
theorem error_path_sets_no_headers (u : Upstream) (e : String)
    (h : getNowPlaying u = Except.error e) :
    (handler u).status = 500 ∧
      (handler u).cacheControl = none ∧
      (handler u).contentType = none := by
  unfold handler
  rw [h]
  exact ⟨rfl, rfl, rfl⟩

/-- C10 witness: at uTokenFail the 500 response carries neither
header. -/
theorem error_path_sets_no_headers_witness :
    (handler uTokenFail).status = 500 ∧
      (handler uTokenFail).cacheControl = none ∧
      (handler uTokenFail).contentType = none :=
  error_path_sets_no_headers uTokenFail
    "Spotify token API returned 401: invalid_grant" rfl

end NowPlaying
